import Mathlib

/-!
Shallow embedding of the alvinw-chess rules library (src/pos.rs, src/board.rs,
src/piece.rs, src/game/movement.rs, src/game/check.rs, src/game/fen.rs) and
proofs about its specification claims.

Conventions of the embedding:
* Rust `u8` values are modelled as `Nat`; where the source can wrap
  (release-mode `u8` arithmetic), the wrap is written explicitly as `% 256`.
* Functions that can `panic!` / `.expect` in the source return `Option`,
  with `none` standing for the abort.
* `HashSet<BoardPos>` is modelled as a duplicate-free `List BoardPos` in
  insertion order (`insertPos`); only membership is ever observed by the
  source except for iteration order, which in the source is unspecified.
* `&mut self` methods are modelled by explicit state passing, preserving the
  exact order of the mutations performed by the source.
-/

/-- Chess side, from `board.rs` (`enum Color`). -/
inductive Color
  | White
  | Black
deriving DecidableEq

/-- Source `Color::opposite`. -/
def Color.opposite : Color → Color
  | .White => .Black
  | .Black => .White

/-- Piece kinds, from `piece.rs` (`enum PieceType`). -/
inductive PieceType
  | King
  | Queen
  | Rook
  | Bishop
  | Knight
  | Pawn
deriving DecidableEq

/-- Source `PieceType::char`: lowercase FEN letter of the piece. -/
def PieceType.char : PieceType → Char
  | .King => 'k'
  | .Queen => 'q'
  | .Rook => 'r'
  | .Bishop => 'b'
  | .Knight => 'n'
  | .Pawn => 'p'

/-- Source `PieceType::from_char` (Result modelled as Option; `Err(())` is `none`). -/
def PieceType.from_char (c : Char) : Option PieceType :=
  if c = 'k' then some .King
  else if c = 'q' then some .Queen
  else if c = 'r' then some .Rook
  else if c = 'b' then some .Bishop
  else if c = 'n' then some .Knight
  else if c = 'p' then some .Pawn
  else none

/-- A tile: an occupied square's content, from `board.rs` (`struct Tile`). -/
structure Tile where
  piece : PieceType
  color : Color
deriving DecidableEq

/-- A board position, from `pos.rs` (`struct BoardPos`), file/rank stored as
`u8` (modelled as `Nat`).  The documented invariant is that both lie in
`[0,7]`, but as claim C9 records, `from_str` does not enforce it. -/
structure BoardPos where
  file : Nat
  rank : Nat
deriving DecidableEq

/-- Source `BoardPos::new`, which panics (here: `none`) when file or rank is
outside `[0,7]`. -/
def BoardPos.new (file rank : Nat) : Option BoardPos :=
  if 7 < file then none
  else if 7 < rank then none
  else some ⟨file, rank⟩

/-- Source `BoardPos::offset`: signed offset, `None` when out of range. -/
def BoardPos.offset (p : BoardPos) (delta_file delta_rank : Int) : Option BoardPos :=
  let file : Int := (p.file : Int) + delta_file
  let rank : Int := (p.rank : Int) + delta_rank
  if file < 0 ∨ 7 < file ∨ rank < 0 ∨ 7 < rank then none
  else some ⟨file.toNat, rank.toNat⟩

/-- Source `BoardPos::file_char` (`'a' as u8 + file`, u8 wrap made explicit). -/
def BoardPos.file_char (p : BoardPos) : Char :=
  Char.ofNat ((97 + p.file) % 256)

/-- Source `impl Display for BoardPos` (`"{}{}"` of file char and `rank + 1`). -/
def BoardPos.render (p : BoardPos) : List Char :=
  p.file_char :: Nat.toDigits 10 (p.rank + 1)

/-- Source `struct ParseBoardPosError` with its static message. -/
structure ParseBoardPosError where
  msg : String
deriving DecidableEq

/-- Source `char::to_digit(10)`: the decimal value of an ASCII digit. -/
def charToDigit10 (c : Char) : Option Nat :=
  if c.isDigit then some (c.toNat - 48) else none

/-- Source `impl FromStr for BoardPos`.  Mirrors the source exactly: the
rank digit has 1 subtracted with wrapping `u8` arithmetic and the file is
`file_char as u8 - 'a' as u8`, also wrapping; no `[0,7]` bounds check is
performed (compare `BoardPos.new`). -/
def BoardPos.from_str (s : String) : Except ParseBoardPosError BoardPos :=
  match s.toList with
  | [] => .error ⟨("String too short.")⟩
  | [_] => .error ⟨("String too short.")⟩
  | [file_char, rank_char] =>
    match charToDigit10 rank_char with
    | none => .error ⟨("Second character must be a digit.")⟩
    | some d =>
      .ok ⟨((file_char.toNat % 256) + 256 - 97) % 256, (d + 255) % 256⟩
  | _ => .error ⟨("String too long.")⟩

/-- Source `to_ascii_lowercase` on a char. -/
def asciiLower (c : Char) : Char :=
  if 65 ≤ c.toNat ∧ c.toNat ≤ 90 then Char.ofNat (c.toNat + 32) else c

/-- Source `to_ascii_uppercase` on a char. -/
def asciiUpper (c : Char) : Char :=
  if 97 ≤ c.toNat ∧ c.toNat ≤ 122 then Char.ofNat (c.toNat - 32) else c

/-- The board, from `board.rs`: an 8×8 grid `data[rank][file]` of optional
tiles, modelled as nested lists. -/
structure Board where
  data : List (List (Option Tile))
deriving DecidableEq

/-- Source `Board::empty`. -/
def Board.empty : Board := ⟨List.replicate 8 (List.replicate 8 none)⟩

/-- Source `Board::get_tile` (`data[rank][file]`).  The source indexes the
fixed-size array directly; engine positions are always in `[0,7]`. -/
def Board.get_tile (b : Board) (p : BoardPos) : Option Tile :=
  (b.data.getD p.rank []).getD p.file none

/-- Shared write primitive: store `t` at `data[rank][file]`. -/
def Board.write (b : Board) (p : BoardPos) (t : Option Tile) : Board :=
  ⟨b.data.set p.rank ((b.data.getD p.rank []).set p.file t)⟩

/-- Source `Board::set_tile`. -/
def Board.set_tile (b : Board) (p : BoardPos) (tile : Tile) : Board :=
  b.write p (some tile)

/-- Source `Board::remove_tile`, returning the previous occupant. -/
def Board.remove_tile (b : Board) (p : BoardPos) : Option Tile × Board :=
  (b.get_tile p, b.write p none)

/-- Source `Board::set_or_remove_tile`. -/
def Board.set_or_remove_tile (b : Board) (p : BoardPos) (t : Option Tile) : Board :=
  b.write p t

/-- FEN parse errors, from `game/fen.rs` (`enum FenParseError`); the borrowed
`&str` of `InvalidTurn` is modelled as an owned `String`. -/
inductive FenParseError
  | LargeSkip
  | OutsideBoard (file rank : Nat)
  | InvalidPiece (c : Char)
  | TooShort
  | InvalidTurn (s : String)
  | InvalidEnPassantTarget (e : ParseBoardPosError)
deriving DecidableEq

/-- Loop body of `Board::from_fen_placement_data`, folding over the
characters with the current board and the `file`/`rank` cursor.  `rank -= 1`
on the `u8` cursor is wrapping arithmetic, written `(rank + 255) % 256`. -/
def Board.from_fen_placement_aux : List Char → Board → Nat → Nat → Except FenParseError Board
  | [], b, _, _ => .ok b
  | c :: rest, b, file, rank =>
    match charToDigit10 c with
    | some skip =>
      if 8 < skip ∨ 8 < file then .error .LargeSkip
      else Board.from_fen_placement_aux rest b (file + skip) rank
    | none =>
      if c = '/' then Board.from_fen_placement_aux rest b 0 ((rank + 255) % 256)
      else
        let lowercase := asciiLower c
        match PieceType.from_char lowercase with
        | none => .error (.InvalidPiece lowercase)
        | some piece =>
          let color := if c = lowercase then Color.Black else Color.White
          if 7 < file ∨ 7 < rank then .error (.OutsideBoard file rank)
          else Board.from_fen_placement_aux rest (b.set_tile ⟨file, rank⟩ ⟨piece, color⟩) (file + 1) rank

/-- Source `Board::from_fen_placement_data`. -/
def Board.from_fen_placement_data (fen : String) : Except FenParseError Board :=
  Board.from_fen_placement_aux fen.toList Board.empty 0 7

/-- One rank of `Board::to_fen_placement_data`: walk the files keeping the
count of the current empty run, flushing it as a digit before each piece
letter and at the end of the rank. -/
def Board.to_fen_rank_aux (b : Board) (rank : Nat) : List Nat → Nat → List Char
  | [], empty_count => if 0 < empty_count then [Nat.digitChar empty_count] else []
  | f :: fs, empty_count =>
    match b.get_tile ⟨f, rank⟩ with
    | none => Board.to_fen_rank_aux b rank fs (empty_count + 1)
    | some tile =>
      (if 0 < empty_count then [Nat.digitChar empty_count] else []) ++
      [(if tile.color = Color.White then asciiUpper tile.piece.char else tile.piece.char)] ++
      Board.to_fen_rank_aux b rank fs 0

/-- Source `Board::to_fen_placement_data` as a character list: ranks 8 down
to 1 joined by `'/'` (the source pushes a trailing `'/'` and pops it, which
yields the same string). -/
def Board.to_fen_placement_data (b : Board) : List Char :=
  List.intercalate ['/']
    (((List.range 8).reverse).map (fun r => Board.to_fen_rank_aux b r (List.range 8) 0))

/-- Per-color castling rights (`struct CastlingAvailability`).
Modelled from the spec: the struct itself is declared in the game module
root, which is not among the source files; spec §3 "CastlingRights (per
color). Two independent booleans: kingside, queenside", and
`game/movement.rs` constructs it with exactly these two fields. -/
structure CastlingAvailability where
  kingside : Bool
  queenside : Bool
deriving DecidableEq

/-- The game state (`struct Game`).
Modelled from the spec: the struct is declared in the game module root,
which is not among the source files.  Spec §3 lists the components (board,
side to move, per-side rights, en passant target, pending promotion square,
halfmove clock, fullmove number) and the test module of `game/movement.rs`
constructs `Game` with exactly these field names. -/
structure Game where
  board : Board
  current_turn : Color
  white_castling : CastlingAvailability
  black_castling : CastlingAvailability
  en_passant_target : Option BoardPos
  promotion_required : Option BoardPos
  halfmove_clock : Nat
  fullmove_number : Nat
deriving DecidableEq

/-- Source `str::split_whitespace`, specialised to the ASCII FEN strings
used here: maximal runs of non-whitespace characters. -/
def splitWhitespaceAux : List Char → List Char → List String
  | [], acc => if acc = [] then [] else [String.mk acc.reverse]
  | c :: rest, acc =>
    if c.isWhitespace then
      if acc = [] then splitWhitespaceAux rest []
      else String.mk acc.reverse :: splitWhitespaceAux rest []
    else splitWhitespaceAux rest (c :: acc)

/-- Whitespace-splitting entry point for `Game::from_fen`. -/
def splitWhitespace (s : String) : List String :=
  splitWhitespaceAux s.toList []

/-- Source `Game::from_fen` after tokenisation: consume the six fields in
order.  The fifth and sixth tokens are bound to `_halfmove_clock` and
`_fullmove_number` in the source and then dropped; the final struct literal
does not mention the clock or promotion fields (their declaration is outside
the provided sources), so those components are modelled as the constants
`none`, `0` and `0`. -/
def Game.from_fen_tokens : List String → Except FenParseError Game
  | [] => .error .TooShort
  | placement :: rest1 =>
    match Board.from_fen_placement_data placement with
    | .error e => .error e
    | .ok board =>
      match rest1 with
      | [] => .error .TooShort
      | turn_tok :: rest2 =>
        let turn : Except FenParseError Color :=
          if turn_tok = ("w") then .ok .White
          else if turn_tok = ("b") then .ok .Black
          else .error (.InvalidTurn turn_tok)
        match turn with
        | .error e => .error e
        | .ok current_turn =>
          match rest2 with
          | [] => .error .TooShort
          | castling_tok :: rest3 =>
            let white_castling : CastlingAvailability :=
              ⟨'K' ∈ castling_tok.toList, 'Q' ∈ castling_tok.toList⟩
            let black_castling : CastlingAvailability :=
              ⟨'k' ∈ castling_tok.toList, 'q' ∈ castling_tok.toList⟩
            match rest3 with
            | [] => .error .TooShort
            | ep_tok :: rest4 =>
              let ep : Except FenParseError (Option BoardPos) :=
                if ep_tok = ("-") then .ok none
                else
                  match BoardPos.from_str ep_tok with
                  | .error e => .error (.InvalidEnPassantTarget e)
                  | .ok p => .ok (some p)
              match ep with
              | .error e => .error e
              | .ok en_passant_target =>
                match rest4 with
                | [] => .error .TooShort
                | _halfmove_clock :: rest5 =>
                  match rest5 with
                  | [] => .error .TooShort
                  | _fullmove_number :: _ =>
                    .ok { board, current_turn, white_castling, black_castling,
                          en_passant_target, promotion_required := none,
                          halfmove_clock := 0, fullmove_number := 0 }

/-- Source `Game::from_fen`. -/
def Game.from_fen (s : String) : Except FenParseError Game :=
  Game.from_fen_tokens (splitWhitespace s)

/-- Source `Game::to_fen`.  Note the final two fields: the source pushes the
literal `"0 0"` (`// TODO clocks`) instead of the stored clock values. -/
def Game.to_fen (g : Game) : String :=
  let castling : List Char :=
    (if g.white_castling.kingside then ['K'] else []) ++
    (if g.white_castling.queenside then ['Q'] else []) ++
    (if g.black_castling.kingside then ['k'] else []) ++
    (if g.black_castling.queenside then ['q'] else [])
  let castling := if castling = [] then ['-'] else castling
  let ep : List Char :=
    match g.en_passant_target with
    | some p => p.render
    | none => ['-']
  String.mk
    (g.board.to_fen_placement_data ++ [' '] ++
     [(if g.current_turn = Color.White then 'w' else 'b')] ++ [' '] ++
     castling ++ [' '] ++ ep ++ [' ', '0', ' ', '0'])

/-- Source `Game::new`.
Modelled from the spec: `Game::new` lives in the game module root, which is
not among the source files.  Spec §3 and §5 (lifecycle, "created from the
starting position"), the FEN test expectations of `game/movement.rs`
(halfmove clock 1 and fullmove number 1 right after the first move) fix the
standard initial position with both rights, no en passant target, halfmove
clock 0 and fullmove number 1. -/
def Game.new : Game :=
  { board :=
      match Board.from_fen_placement_data ("rnbqkbnr/pppppppp/8/8/8/8/PPPPPPPP/RNBQKBNR") with
      | .ok b => b
      | .error _ => Board.empty,
    current_turn := .White,
    white_castling := ⟨true, true⟩,
    black_castling := ⟨true, true⟩,
    en_passant_target := none,
    promotion_required := none,
    halfmove_clock := 0,
    fullmove_number := 1 }

/-- Errors of `Game::get_moveset` / `get_legal_moves` (`enum GetMovesetError`). -/
inductive GetMovesetError
  | NoTile
  | NotCurrentTurn
deriving DecidableEq

/-- Errors of `Game::move_piece` (`enum MovePieceError`). -/
inductive MovePieceError
  | NoTile
  | NotCurrentTurn
  | InvalidMove
deriving DecidableEq

/-- Source `enum MoveType`. -/
inductive MoveType
  | ToEmpty
  | Attacking
deriving DecidableEq

/-- Source `struct PerformedMove`: the undo log of `perform_move`. -/
structure PerformedMove where
  changed_tiles : List (BoardPos × Option Tile)
  had_capture : Bool
deriving DecidableEq

/-- `HashSet::insert`: add a position if it is not already present.  The
list keeps insertion order; only membership is observable in the source. -/
def insertPos (l : List BoardPos) (p : BoardPos) : List BoardPos :=
  if p ∈ l then l else l ++ [p]

/-- Source `u8::abs_diff`. -/
def absDiff (a b : Nat) : Nat :=
  if a ≤ b then b - a else a - b

/-- Source `Game::try_move_once`. -/
def Game.try_move_once (g : Game) (start : BoardPos) (delta_file delta_rank : Int)
    (friendly_color : Color) : Option (BoardPos × MoveType) :=
  match start.offset delta_file delta_rank with
  | none => none
  | some pos =>
    match g.board.get_tile pos with
    | none => some (pos, .ToEmpty)
    | some tile =>
      if tile.color = friendly_color then none
      else some (pos, .Attacking)

/-- Source `Game::try_moves_once`: try each delta, inserting the valid ones. -/
def Game.try_moves_once (g : Game) (moveset : List BoardPos) (start : BoardPos)
    (friendly_color : Color) (delta_positions : List (Int × Int)) : List BoardPos :=
  delta_positions.foldl
    (fun ms d =>
      match g.try_move_once start d.1 d.2 friendly_color with
      | some (pos, _) => insertPos ms pos
      | none => ms)
    moveset

/-- Source `Game::try_attacking_move`: insert the move only when it captures. -/
def Game.try_attacking_move (g : Game) (moveset : List BoardPos) (start : BoardPos)
    (friendly_color : Color) (delta_file delta_rank : Int) : List BoardPos :=
  match g.try_move_once start delta_file delta_rank friendly_color with
  | some (pos, .Attacking) => insertPos moveset pos
  | _ => moveset

/-- Loop of `Game::try_move_multiple`, with explicit fuel.  The loop advances
by a nonzero delta inside the 8×8 board each iteration, so it runs at most 7
successful steps; fuel 8 is never exhausted for the slider vectors used. -/
def Game.try_move_multiple_aux (g : Game) (friendly_color : Color)
    (delta_file delta_rank : Int) : Nat → List BoardPos → BoardPos → List BoardPos
  | 0, ms, _ => ms
  | fuel + 1, ms, pos =>
    match g.try_move_once pos delta_file delta_rank friendly_color with
    | none => ms
    | some (new_pos, move_type) =>
      let ms := insertPos ms new_pos
      if move_type = MoveType.Attacking then ms
      else Game.try_move_multiple_aux g friendly_color delta_file delta_rank fuel ms new_pos

/-- Source `Game::try_move_multiple`: slide in one direction, adding empties,
stopping after a capture or at a blocker/edge. -/
def Game.try_move_multiple (g : Game) (moveset : List BoardPos) (start : BoardPos)
    (friendly_color : Color) (delta_file delta_rank : Int) : List BoardPos :=
  Game.try_move_multiple_aux g friendly_color delta_file delta_rank 8 moveset start

/-- Source `Game::try_moves_multiple`: slide along each direction vector. -/
def Game.try_moves_multiple (g : Game) (moveset : List BoardPos) (start : BoardPos)
    (friendly_color : Color) (vectors : List (Int × Int)) : List BoardPos :=
  vectors.foldl
    (fun ms v => g.try_move_multiple ms start friendly_color v.1 v.2)
    moveset

/-- Loop of `Game::find_rook` with explicit fuel: at most the 8 squares of
the rank are visited before `offset` leaves the board. -/
def Game.find_rook_aux (g : Game) (color : Color) (dir : Int) : Nat → BoardPos → Option BoardPos
  | 0, _ => none
  | fuel + 1, pos =>
    match g.board.get_tile pos with
    | some tile =>
      if tile.color ≠ color ∨ tile.piece ≠ PieceType.Rook then none
      else some pos
    | none =>
      match pos.offset dir 0 with
      | none => none
      | some new_pos => Game.find_rook_aux g color dir fuel new_pos

/-- Source `Game::find_rook`: walk from `start` in direction `dir` until the
first occupant, which must be a friendly rook. -/
def Game.find_rook (g : Game) (start : BoardPos) (color : Color) (dir : Int) : Option BoardPos :=
  Game.find_rook_aux g color dir 8 start

/-- The per-piece moveset of `Game::get_pseudo_legal_moves` minus the
castling block of the King arm (shared between both values of
`include_castling`; the castling block is appended by
`get_pseudo_legal_moves` itself). -/
def Game.pseudo_moves_base (g : Game) (pos : BoardPos) (tile : Tile) : List BoardPos :=
  match tile.piece with
  | .Queen =>
    g.try_moves_multiple [] pos tile.color
      [(-1, 1), (0, 1), (1, 1), (-1, 0), (1, 0), (-1, -1), (0, -1), (1, -1)]
  | .Rook =>
    g.try_moves_multiple [] pos tile.color [(0, 1), (-1, 0), (1, 0), (0, -1)]
  | .Bishop =>
    g.try_moves_multiple [] pos tile.color [(-1, 1), (1, 1), (-1, -1), (1, -1)]
  | .Knight =>
    g.try_moves_once [] pos tile.color
      [(-1, 2), (1, 2), (2, 1), (2, -1), (-1, -2), (1, -2), (-2, 1), (-2, -1)]
  | .King =>
    g.try_moves_once [] pos tile.color
      [(-1, 1), (0, 1), (1, 1), (-1, 0), (1, 0), (-1, -1), (0, -1), (1, -1)]
  | .Pawn =>
    let dir : Int := if tile.color = Color.White then 1 else -1
    let first_rank : Nat := if tile.color = Color.White then 1 else 6
    let is_first_move := pos.rank = first_rank
    let ms := g.try_moves_once [] pos tile.color [(0, dir)]
    let ms :=
      if is_first_move then
        let piece_one_forward := (pos.offset 0 dir).bind (fun p => g.board.get_tile p)
        if piece_one_forward = none then g.try_moves_once ms pos tile.color [(0, 2 * dir)]
        else ms
      else ms
    let ms := g.try_attacking_move ms pos tile.color (-1) dir
    let ms := g.try_attacking_move ms pos tile.color 1 dir
    match g.en_passant_target with
    | none => ms
    | some en_passant_target =>
      if (en_passant_target.rank : Int) = (pos.rank : Int) + dir
          ∧ absDiff en_passant_target.file pos.file = 1 then
        let attacked_pawn_pos : BoardPos := ⟨en_passant_target.file, pos.rank⟩
        match g.board.get_tile attacked_pawn_pos with
        | some attacked_pawn =>
          if attacked_pawn.piece = PieceType.Pawn ∧ attacked_pawn.color ≠ tile.color then
            insertPos ms en_passant_target
          else ms
        | none => ms
      else ms

/-- `Game::get_pseudo_legal_moves` with `include_castling = false`.  This is
what the attack scan below uses; the full function (with the castling block)
is `Game.get_pseudo_legal_moves`.  The source panics on an empty tile; every
call site checks occupancy first, so the `[]` arm is unreachable there. -/
def Game.pseudo_moves_no_castling (g : Game) (pos : BoardPos) : List BoardPos :=
  match g.board.get_tile pos with
  | none => []
  | some tile => g.pseudo_moves_base pos tile

/-- Source `Game::is_attacked_by` (`game/check.rs`): scan the board in file
then rank order for a piece of `color` whose castling-free pseudo-legal
moves contain `pos`. -/
def Game.is_attacked_by (g : Game) (pos : BoardPos) (color : Color) : Bool :=
  (List.range 8).any fun file =>
    (List.range 8).any fun rank =>
      match g.board.get_tile ⟨file, rank⟩ with
      | none => false
      | some tile =>
        if tile.color ≠ color then false
        else decide (pos ∈ g.pseudo_moves_no_castling ⟨file, rank⟩)

/-- Source `Game::get_king_pos` (`game/check.rs`): first king of `color` in
file then rank scan order. -/
def Game.get_king_pos (g : Game) (color : Color) : Option BoardPos :=
  (List.range 8).findSome? fun file =>
    (List.range 8).findSome? fun rank =>
      match g.board.get_tile ⟨file, rank⟩ with
      | some tile =>
        if tile.piece = PieceType.King ∧ tile.color = color then some ⟨file, rank⟩
        else none
      | none => none

/-- Source `Game::is_check` (`game/check.rs`): a side with no king is deemed
not in check. -/
def Game.is_check (g : Game) (color : Color) : Bool :=
  match g.get_king_pos color with
  | none => false
  | some king_pos => g.is_attacked_by king_pos color.opposite

/-- Source `Game::try_castling`: the crossed square must not be attacked and
the rook search from the king's landing square must succeed; the landing
square is then inserted.  (Neither the emptiness of the crossed square nor
the landing square's own safety is checked here.) -/
def Game.try_castling (g : Game) (start : BoardPos) (color : Color)
    (moveset : List BoardPos) (dir : Int) : List BoardPos :=
  match start.offset dir 0 with
  | none => moveset
  | some cross_over_pos =>
    if g.is_attacked_by cross_over_pos color.opposite then moveset
    else
      match cross_over_pos.offset dir 0 with
      | none => moveset
      | some king_pos =>
        match g.find_rook king_pos color dir with
        | some _ => insertPos moveset king_pos
        | none => moveset

/-- Source `Game::get_pseudo_legal_moves`: the per-piece base moves, plus
the castling block of the King arm when `include_castling` is set, the
right is held on at least one side, and the king is not currently in check. -/
def Game.get_pseudo_legal_moves (g : Game) (pos : BoardPos) (include_castling : Bool) : List BoardPos :=
  match g.board.get_tile pos with
  | none => []
  | some tile =>
    let moveset := g.pseudo_moves_base pos tile
    if tile.piece = PieceType.King then
      let avail :=
        match tile.color with
        | .White => g.white_castling
        | .Black => g.black_castling
      if include_castling ∧ (avail.kingside ∨ avail.queenside) ∧ ¬ g.is_check tile.color then
        let moveset :=
          if avail.kingside then g.try_castling pos tile.color moveset 1 else moveset
        if avail.queenside then g.try_castling pos tile.color moveset (-1) else moveset
      else moveset
    else moveset

/-- Source `Game::perform_move`.  `none` models the panics (`expect` on the
moved tile, the castling rook search and removal, and the two en passant
`panic!`s).  The undo log entries are recorded in the source's order; note
that in the castling branch the crossed square (`new_rook_pos`) is recorded
*after* the rook was already removed from the board, exactly as in the
source (`remove_tile(&rook_pos)` on line 190 precedes `record_tile` on
line 195). -/
def Game.perform_move (g : Game) (from_pos to_pos : BoardPos) : Option (Game × PerformedMove) :=
  match g.board.get_tile from_pos with
  | none => none
  | some tile =>
    let to_tile := g.board.get_tile to_pos
    let changed1 : List (BoardPos × Option Tile) := [(from_pos, some tile), (to_pos, to_tile)]
    let had_capture1 := to_tile.isSome
    let castled : Option (Board × List (BoardPos × Option Tile)) :=
      if tile.piece = PieceType.King ∧ absDiff from_pos.file to_pos.file = 2 then
        let dir : Int := if from_pos.file < to_pos.file then 1 else -1
        match from_pos.offset dir 0 with
        | none => none
        | some new_rook_pos =>
          match g.find_rook new_rook_pos tile.color dir with
          | none => none
          | some rook_pos =>
            match g.board.remove_tile rook_pos with
            | (none, _) => none
            | (some rook, b1) =>
              let changed2 := changed1 ++ [(rook_pos, some rook)]
              let changed3 := changed2 ++ [(new_rook_pos, b1.get_tile new_rook_pos)]
              let b2 := ((b1.remove_tile from_pos).2.set_tile to_pos tile).set_tile new_rook_pos rook
              some (b2, changed3)
      else
        some ((g.board.remove_tile from_pos).2.set_tile to_pos tile, changed1)
    match castled with
    | none => none
    | some (b2, changed) =>
      if tile.piece = PieceType.Pawn ∧ g.en_passant_target = some to_pos then
        let attacked_pawn_pos : BoardPos := ⟨to_pos.file, from_pos.rank⟩
        match b2.remove_tile attacked_pawn_pos with
        | (none, _) => none
        | (some attacked_pawn, b3) =>
          if attacked_pawn.piece ≠ PieceType.Pawn ∨ attacked_pawn.color = tile.color then none
          else
            some ({ g with board := b3 },
                  ⟨changed ++ [(attacked_pawn_pos, some attacked_pawn)], true⟩)
      else
        some ({ g with board := b2 }, ⟨changed, had_capture1⟩)

/-- Source `Game::undo_performed_move`: replay the undo log in order,
restoring each recorded square to its recorded occupant. -/
def Game.undo_performed_move (g : Game) (performed_move : PerformedMove) : Game :=
  { g with
    board := performed_move.changed_tiles.foldl
      (fun b entry => b.set_or_remove_tile entry.1 entry.2) g.board }

/-- The `retain` loop of `Game::get_legal_moves`: for each candidate move,
perform it, test whether the mover's own side is then in check, undo it, and
keep the candidate when not.  The game state is threaded exactly as the
shared `&mut self` is in the source. -/
def Game.legal_filter (pos : BoardPos) (color : Color) :
    List BoardPos → Game → Option (List BoardPos × Game)
  | [], g => some ([], g)
  | m :: rest, g =>
    match g.perform_move pos m with
    | none => none
    | some (g1, performed_move) =>
      let check := g1.is_check color
      let g2 := g1.undo_performed_move performed_move
      match Game.legal_filter pos color rest g2 with
      | none => none
      | some (kept, g3) => some ((if check then kept else m :: kept), g3)

/-- Source `Game::get_legal_moves`.  The outer `Option` models panics inside
the trial loop; the returned `Game` is the state the `&mut self` receiver
holds after the call. -/
def Game.get_legal_moves (g : Game) (pos : BoardPos) :
    Option (Except GetMovesetError (List BoardPos) × Game) :=
  match g.board.get_tile pos with
  | none => some (.error .NoTile, g)
  | some tile =>
    if tile.color ≠ g.current_turn then some (.error .NotCurrentTurn, g)
    else
      let moveset := g.get_pseudo_legal_moves pos true
      match Game.legal_filter pos tile.color moveset g with
      | none => none
      | some (kept, g1) => some (.ok kept, g1)

/-- Source `Game::move_piece`: validate via `get_legal_moves`, perform, then
update clocks, en passant target, castling rights, promotion flag, fullmove
number and the turn, in the source's order. -/
def Game.move_piece (g : Game) (from_pos to_pos : BoardPos) :
    Option (Except MovePieceError Unit × Game) :=
  match g.get_legal_moves from_pos with
  | none => none
  | some (.error .NoTile, g1) => some (.error .NoTile, g1)
  | some (.error .NotCurrentTurn, g1) => some (.error .NotCurrentTurn, g1)
  | some (.ok moveset, g1) =>
    if to_pos ∉ moveset then some (.error .InvalidMove, g1)
    else
      match g1.board.get_tile from_pos with
      | none => none
      | some tile =>
        match g1.perform_move from_pos to_pos with
        | none => none
        | some (g2, performed_move) =>
          let halfmove_clock := if performed_move.had_capture then 0 else g2.halfmove_clock + 1
          let ep_step : Option (Option BoardPos) :=
            if tile.piece = PieceType.Pawn ∧ absDiff from_pos.rank to_pos.rank = 2 then
              let dir : Int := if from_pos.rank < to_pos.rank then 1 else -1
              let rank : Int := (from_pos.rank : Int) + dir
              if 0 ≤ rank then
                match BoardPos.new from_pos.file rank.toNat with
                | none => none
                | some p => some (some p)
              else some none
            else some none
          match ep_step with
          | none => none
          | some en_passant_target =>
            let wc := g2.white_castling
            let bc := g2.black_castling
            let rights :=
              if tile.piece = PieceType.King then
                match tile.color with
                | .White => ((⟨false, false⟩ : CastlingAvailability), bc)
                | .Black => (wc, (⟨false, false⟩ : CastlingAvailability))
              else (wc, bc)
            let rights :=
              if tile.piece = PieceType.Rook then
                let starting_rank : Nat := if tile.color = Color.White then 0 else 7
                if from_pos.rank = starting_rank then
                  let avail := match tile.color with
                    | .White => rights.1
                    | .Black => rights.2
                  let avail := if from_pos.file = 0 then { avail with queenside := false } else avail
                  let avail := if from_pos.file = 7 then { avail with kingside := false } else avail
                  match tile.color with
                  | .White => (avail, rights.2)
                  | .Black => (rights.1, avail)
                else rights
              else rights
            let last_rank : Nat := if tile.color = Color.White then 7 else 0
            let promotion_required :=
              if to_pos.rank = last_rank ∧ tile.piece = PieceType.Pawn then some to_pos
              else g2.promotion_required
            let fullmove_number :=
              if g2.current_turn = Color.Black then g2.fullmove_number + 1
              else g2.fullmove_number
            some (.ok (),
                  { g2 with
                    halfmove_clock := halfmove_clock,
                    en_passant_target := en_passant_target,
                    white_castling := rights.1,
                    black_castling := rights.2,
                    promotion_required := promotion_required,
                    fullmove_number := fullmove_number,
                    current_turn := g2.current_turn.opposite })

/-- Source `Game::is_checkmate` (`game/check.rs`): in check, and no friendly
piece has a castling-free pseudo-legal move whose naive set/remove execution
leaves the side out of check.  The source's in-place set/remove/undo on the
board restores it exactly, so the scan is modelled purely. -/
def Game.is_checkmate (g : Game) (color : Color) : Bool :=
  g.is_check color &&
    ! ((List.range 8).any fun file =>
        (List.range 8).any fun rank =>
          match g.board.get_tile ⟨file, rank⟩ with
          | none => false
          | some tile =>
            if tile.color = color then
              (g.pseudo_moves_no_castling ⟨file, rank⟩).any fun move_pos =>
                let b := (g.board.set_tile move_pos tile).write ⟨file, rank⟩ none
                ! Game.is_check { g with board := b } color
            else false)

deriving instance DecidableEq for Except

/-- Is an `Except` value `ok`? -/
def isOkE {ε α : Type} : Except ε α → Bool
  | .ok _ => true
  | .error _ => false

/-- The game parsed from a FEN string, with an arbitrary fallback for parse
failures (every use below is accompanied by a proof that parsing succeeded). -/
def gameOfFen (s : String) : Game :=
  match Game.from_fen s with
  | .ok g => g
  | .error _ => Game.new

/-- The legal moveset when `get_legal_moves` returns it without a panic. -/
def legalMovesOf (g : Game) (p : BoardPos) : Option (List BoardPos) :=
  match g.get_legal_moves p with
  | some (.ok ms, _) => some ms
  | _ => none

/-- The state `move_piece` leaves behind when it completes without a panic
(on a panic, modelled as `none`, this falls back to the input state). -/
def moveStateAfter (g : Game) (from_pos to_pos : BoardPos) : Game :=
  match g.move_piece from_pos to_pos with
  | some (_, g1) => g1
  | none => g

/-- Do two position lists contain exactly the same positions? -/
def eqAsSets (l1 l2 : List BoardPos) : Bool :=
  l1.all (fun p => decide (p ∈ l2)) && l2.all (fun p => decide (p ∈ l1))

/-- The C1 position: White Ke1, Rd1, Rb1, Black Ra1, Kh8, White may castle
queenside; the queenside castling rook search from the crossed square d1
finds the d1 rook itself. -/
def c1fen : String := "7k/8/8/8/8/8/8/rR1RK3 w Q - 0 1"

/-- The C1 position as a game state. -/
def c1game : Game := gameOfFen c1fen

/-- The state after playing e1→c1 (queenside castling) in the C1 position. -/
def c1after : Game := moveStateAfter c1game ⟨4, 0⟩ ⟨2, 0⟩

/-- The C2 position: White pawn e2, Black rook e4, e3 empty. -/
def c2fen : String := "4k3/8/8/8/4r3/8/4P3/4K3 w - - 0 1"

/-- The C2 position as a game state. -/
def c2game : Game := gameOfFen c2fen

/-- The state after 1. e2–e4 from the initial position. -/
def afterE2E4 : Game := moveStateAfter Game.new ⟨4, 1⟩ ⟨4, 3⟩

/-- The game parsed back from exporting `afterE2E4`. -/
def c4roundtrip : Game := gameOfFen afterE2E4.to_fen

/-- The C5 castling position. -/
def c5fen : String := "r3k2r/8/8/8/8/8/8/R3K2R w KQkq - 0 1"

/-- The C5 position as a game state. -/
def c5game : Game := gameOfFen c5fen

/-- The C5 position with the turn switched to Black. -/
def c5black : Game := { c5game with current_turn := Color.Black }

/-- The C6 en-passant-discovered-check position. -/
def c6fen : String := "8/8/8/8/1R2p1k1/8/3P4/4K3 w - - 0 1"

/-- The C6 position as a game state. -/
def c6game : Game := gameOfFen c6fen

/-- The C6 position after White plays d2→d4. -/
def c6after : Game := moveStateAfter c6game ⟨3, 1⟩ ⟨3, 3⟩

/-- The C7 back-rank mate position. -/
def c7fen : String := "8/8/8/5K1k/8/8/8/7R w - - 0 1"

/-- The C7 position as a game state. -/
def c7game : Game := gameOfFen c7fen

/-- The C8 position: White Ke1, Rf1, Rh1 with the kingside right; the
kingside castling rook search from the crossed square f1 finds the f1 rook
itself. -/
def c8fen : String := "8/8/8/8/8/8/8/4KR1R w K - 0 1"

/-- The C8 position as a game state. -/
def c8game : Game := gameOfFen c8fen

/-- The state `get_legal_moves(e1)` leaves behind on the C8 position. -/
def c8after : Game :=
  match c8game.get_legal_moves ⟨4, 0⟩ with
  | some (_, g1) => g1
  | none => c8game

set_option maxRecDepth 100000

/-- C7: in the position parsed from `8/8/8/5K1k/8/8/8/7R w - - 0 1`,
`is_checkmate(Black)` returns `true` and `is_checkmate(White)` returns
`false`. -/
theorem c7_checkmate_back_rank :
    Game.from_fen c7fen = .ok c7game
    ∧ c7game.is_checkmate Color.Black = true
    ∧ c7game.is_checkmate Color.White = false := by
  decide

/-- C2 fails on the code: with a White pawn on e2, e3 empty and a Black rook
on e4, the two-square move e2→e4 is included in the pawn's pseudo-legal
moveset even though the landing square is occupied (the slide helper accepts
an enemy-occupied target as a capture), contradicting "… and the landing
square is empty". -/
theorem c2_double_push_onto_occupied_square :
    Game.from_fen c2fen = .ok c2game
    ∧ c2game.board.get_tile ⟨4, 1⟩ = some ⟨PieceType.Pawn, Color.White⟩
    ∧ c2game.board.get_tile ⟨4, 2⟩ = none
    ∧ c2game.board.get_tile ⟨4, 3⟩ = some ⟨PieceType.Rook, Color.Black⟩
    ∧ (⟨4, 3⟩ : BoardPos) ∈ c2game.get_pseudo_legal_moves ⟨4, 1⟩ true := by
  decide

/-- C3 fails on the code: from the initial position `move_piece(e2, e4)`
succeeds and the resulting state stores halfmove clock 1 and fullmove
number 1, but `to_fen` renders the literal `"0 0"` (the source's
`// TODO clocks` stub) instead of the claimed `"… e3 1 1"`. -/
theorem c3_to_fen_renders_stubbed_clocks :
    Game.new.move_piece ⟨4, 1⟩ ⟨4, 3⟩ = some (.ok (), afterE2E4)
    ∧ afterE2E4.to_fen = ("rnbqkbnr/pppppppp/8/8/4P3/8/PPPP1PPP/RNBQKBNR b KQkq e3 0 0")
    ∧ afterE2E4.to_fen ≠ ("rnbqkbnr/pppppppp/8/8/4P3/8/PPPP1PPP/RNBQKBNR b KQkq e3 1 1")
    ∧ afterE2E4.halfmove_clock = 1
    ∧ afterE2E4.fullmove_number = 1 := by
  decide

/-- C4 fails on the code: exporting the (reachable) state after 1. e2–e4 and
importing it back loses the clocks — the stored halfmove clock is 1 and the
fullmove number is 1, but `to_fen` renders `"0 0"` and `from_fen` discards
the clock tokens, so the round trip yields a different state.  Board, side
to move, castling rights and en passant target do survive the round trip. -/
theorem c4_fen_roundtrip_loses_clocks :
    Game.from_fen afterE2E4.to_fen = .ok c4roundtrip
    ∧ c4roundtrip.board = afterE2E4.board
    ∧ c4roundtrip.current_turn = afterE2E4.current_turn
    ∧ c4roundtrip.white_castling = afterE2E4.white_castling
    ∧ c4roundtrip.black_castling = afterE2E4.black_castling
    ∧ c4roundtrip.en_passant_target = afterE2E4.en_passant_target
    ∧ afterE2E4.halfmove_clock = 1
    ∧ afterE2E4.fullmove_number = 1
    ∧ c4roundtrip.halfmove_clock = 0
    ∧ c4roundtrip.fullmove_number = 0
    ∧ c4roundtrip ≠ afterE2E4 := by
  decide

/-- C5: in the position `r3k2r/8/8/8/8/8/8/R3K2R w KQkq - 0 1` the legal
moves of the e1 king are exactly {c1, d1, d2, e2, f2, f1, g1}, and with the
turn switched to Black those of the e8 king are exactly
{c8, d8, d7, e7, f7, f8, g8} — both castling destinations included. -/
theorem c5_castling_movesets :
    Game.from_fen c5fen = .ok c5game
    ∧ (legalMovesOf c5game ⟨4, 0⟩).map
        (fun ms => eqAsSets ms
          [⟨2, 0⟩, ⟨3, 0⟩, ⟨3, 1⟩, ⟨4, 1⟩, ⟨5, 1⟩, ⟨5, 0⟩, ⟨6, 0⟩]) = some true
    ∧ (legalMovesOf c5black ⟨4, 7⟩).map
        (fun ms => eqAsSets ms
          [⟨2, 7⟩, ⟨3, 7⟩, ⟨3, 6⟩, ⟨4, 6⟩, ⟨5, 6⟩, ⟨5, 7⟩, ⟨6, 7⟩]) = some true := by
  decide

/-- C6: in `8/8/8/8/1R2p1k1/8/3P4/4K3 w - - 0 1`, after `move_piece(d2, d4)`
succeeds the en passant target is d3, yet d3 is not among the legal moves of
the black pawn on e4 (the capture would open the b4 rook's line to the g4
king). -/
theorem c6_en_passant_discovered_check :
    Game.from_fen c6fen = .ok c6game
    ∧ c6game.move_piece ⟨3, 1⟩ ⟨3, 3⟩ = some (.ok (), c6after)
    ∧ c6after.en_passant_target = some ⟨3, 2⟩
    ∧ (legalMovesOf c6after ⟨4, 3⟩).map (fun ms => decide (⟨3, 2⟩ ∈ ms)) = some false := by
  decide

/-- C1 fails on the code: in `7k/8/8/8/8/8/8/rR1RK3 w Q - 0 1` (White Ke1,
Rd1, Rb1; Black Ra1, Kh8; White may castle queenside), `get_legal_moves(e1)`
returns c1 among White's legal moves, and `move_piece(e1, c1)` succeeds —
but afterwards the White king on c1 *is* attacked by the Black rook on a1.
The castling trial inside `get_legal_moves` finds the castling rook on the
crossed square d1, records that square in the undo log only after removing
the rook, and so its undo erases the d1 rook; the committed move then
castles with the b1 rook instead, opening the a1 rook's line. -/
theorem c1_legal_castle_leaves_king_attacked :
    Game.from_fen c1fen = .ok c1game
    ∧ (legalMovesOf c1game ⟨4, 0⟩).map (fun ms => decide (⟨2, 0⟩ ∈ ms)) = some true
    ∧ c1game.move_piece ⟨4, 0⟩ ⟨2, 0⟩ = some (.ok (), c1after)
    ∧ c1after.get_king_pos Color.White = some ⟨2, 0⟩
    ∧ c1after.is_attacked_by ⟨2, 0⟩ Color.Black = true
    ∧ c1after.is_check Color.White = true := by
  decide

/-- C8 fails on the code: on `8/8/8/8/8/8/8/4KR1R w K - 0 1` (White Ke1,
Rf1, Rh1 with the kingside right), `get_legal_moves(e1)` returns `Ok` yet
leaves the state changed — the White rook on f1 is gone afterwards, because
the kingside castling trial finds the castling rook on the crossed square
f1 and the undo log records that square only after the rook was removed.
Consequently a `move_piece` call that returns an error (here `InvalidMove`)
also leaves the state changed. -/
theorem c8_get_legal_moves_corrupts_state :
    Game.from_fen c8fen = .ok c8game
    ∧ (c8game.get_legal_moves ⟨4, 0⟩).map (fun x => isOkE x.1) = some true
    ∧ (c8game.get_legal_moves ⟨4, 0⟩).map (fun x => x.2) = some c8after
    ∧ c8game.board.get_tile ⟨5, 0⟩ = some ⟨PieceType.Rook, Color.White⟩
    ∧ c8after.board.get_tile ⟨5, 0⟩ = none
    ∧ c8after ≠ c8game
    ∧ c8game.move_piece ⟨4, 0⟩ ⟨0, 7⟩ = some (.error .InvalidMove, c8after) := by
  decide

/-- C9: `BoardPos::from_str` performs no range validation.  Every
two-character string whose second character is a decimal digit parses
successfully to the position computed directly with wrapping `u8`
arithmetic; in particular `"i3"` yields file 8 (which `BoardPos::new`
rejects as out of range) and `"a0"` underflows the rank computation to 255
(also out of range) instead of returning a `ParseBoardPosError`. -/
theorem c9_from_str_skips_range_validation :
    (∀ (c1 c2 : Char), c2.isDigit = true →
      BoardPos.from_str (String.mk [c1, c2]) =
        .ok ⟨((c1.toNat % 256) + 256 - 97) % 256, ((c2.toNat - 48) + 255) % 256⟩)
    ∧ BoardPos.from_str ("i3") = .ok ⟨8, 2⟩
    ∧ BoardPos.new 8 2 = none
    ∧ BoardPos.from_str ("a0") = .ok ⟨0, 255⟩
    ∧ BoardPos.new 0 255 = none := by
  refine ⟨?_, by decide, by decide, by decide, by decide⟩
  intro c1 c2 h
  simp [BoardPos.from_str, String.toList, charToDigit10, h]

/-- Witness for C9 at a concrete out-of-range input: applying the general
part to `"j5"` gives file 9, with the digit hypothesis discharged there. -/
theorem c9_witness :
    BoardPos.from_str (String.mk ['j', '5']) = .ok ⟨9, 4⟩ :=
  c9_from_str_skips_range_validation.1 'j' '5' (by decide)

/-- C10: `from_fen` never validates the halfmove-clock and fullmove-number
fields.  Whenever the first four fields parse, any fifth and sixth tokens —
numeric or not — are accepted, the result does not depend on them, and the
stored clock components are the constants 0; the only failure involving the
last two fields is `TooShort` when one is missing. -/
theorem c10_from_fen_ignores_clock_fields :
    ∀ (pl tn ca ep t5 t6 : String) (b : Board),
      Board.from_fen_placement_data pl = .ok b →
      (tn = ("w") ∨ tn = ("b")) →
      (ep = ("-") ∨ isOkE (BoardPos.from_str ep) = true) →
      isOkE (Game.from_fen_tokens [pl, tn, ca, ep, t5, t6]) = true
      ∧ Game.from_fen_tokens [pl, tn, ca, ep, t5, t6]
          = Game.from_fen_tokens [pl, tn, ca, ep, ("0"), ("1")]
      ∧ Game.from_fen_tokens [pl, tn, ca, ep, t5] = .error .TooShort
      ∧ ∀ g, Game.from_fen_tokens [pl, tn, ca, ep, t5, t6] = .ok g →
          g.halfmove_clock = 0 ∧ g.fullmove_number = 0 := by
  intro pl tn ca ep t5 t6 b hpl htn hep
  by_cases hd : ep = ("-")
  · subst hd
    rcases htn with h | h <;> subst h <;>
      refine ⟨by simp [Game.from_fen_tokens, hpl, isOkE],
              by simp [Game.from_fen_tokens, hpl],
              by simp [Game.from_fen_tokens, hpl], ?_⟩ <;>
      · intro g hg
        simp [Game.from_fen_tokens, hpl] at hg
        simp [← hg]
  · rcases hep with h' | h'
    · exact absurd h' hd
    · cases hfs : BoardPos.from_str ep with
      | error e => rw [hfs] at h'; simp [isOkE] at h'
      | ok p =>
        rcases htn with h | h <;> subst h <;>
          refine ⟨by simp [Game.from_fen_tokens, hpl, hd, hfs, isOkE],
                  by simp [Game.from_fen_tokens, hpl, hd, hfs],
                  by simp [Game.from_fen_tokens, hpl, hd, hfs], ?_⟩ <;>
          · intro g hg
            simp [Game.from_fen_tokens, hpl, hd, hfs] at hg
            simp [← hg]

/-- Witness for C10 at concrete inputs: the empty board, White to move, no
rights, no en passant target, and the non-numeric clock tokens `"xyz"` and
`"abc"`, with all three hypotheses discharged concretely. -/
theorem c10_witness :
    isOkE (Game.from_fen_tokens [("8/8/8/8/8/8/8/8"), ("w"), ("-"), ("-"), ("xyz"), ("abc")]) = true
    ∧ Game.from_fen_tokens [("8/8/8/8/8/8/8/8"), ("w"), ("-"), ("-"), ("xyz"), ("abc")]
        = Game.from_fen_tokens [("8/8/8/8/8/8/8/8"), ("w"), ("-"), ("-"), ("0"), ("1")]
    ∧ Game.from_fen_tokens [("8/8/8/8/8/8/8/8"), ("w"), ("-"), ("-"), ("xyz")] = .error .TooShort
    ∧ ∀ g, Game.from_fen_tokens [("8/8/8/8/8/8/8/8"), ("w"), ("-"), ("-"), ("xyz"), ("abc")] = .ok g →
        g.halfmove_clock = 0 ∧ g.fullmove_number = 0 :=
  c10_from_fen_ignores_clock_fields ("8/8/8/8/8/8/8/8") ("w") ("-") ("-") ("xyz") ("abc")
    Board.empty (by decide) (Or.inl rfl) (Or.inl rfl)
